import Mathlib

/-!
Verification of the LaunchLens core: a shallow embedding of the ETL pipeline
(src/etl/pipeline.py) and of the aggregation query layer
(src/data/sqlite_database.py, src/analysis/service.py), with theorems that
settle the specification claims against this embedding.
-/

namespace LaunchLens

/- ===========================================================================
   Part 1.  ETL pipeline model (src/etl/pipeline.py)
   The pipeline opens a plain `sqlite3.connect(db_path)` connection
   (pipeline.py line 48) and runs each entity batch inside
   `with self.connection:` which commits on success and rolls the whole
   transaction back when an exception escapes the block.  Every INSERT is
   `INSERT OR IGNORE`.
   =========================================================================== -/

/-- A Python value as passed to `connection.execute` parameters.
`vnone` is Python `None` (what `record.get(key)` yields for a missing key);
`vobj` stands for any Python object sqlite3 cannot bind (binding it raises
`InterfaceError`). -/
inductive PyVal where
  | vnone
  | vstr (s : String)
  | vint (n : ℤ)
  | vbool (b : Bool)
  | vobj
  deriving DecidableEq

/-- Whether sqlite3 can bind this value as a statement parameter. -/
def PyVal.bindable : PyVal → Bool
  | .vobj => false
  | _ => true

/-- A raw rocket record as read by `insert_rockets`: the values of
`rocket.get("id")`, `rocket.get("name")`, `rocket.get("type")`. -/
structure RocketRec where
  id : PyVal
  name : PyVal
  type : PyVal
  deriving DecidableEq

/-- A stored launchpad row (id, name, locality, region). -/
structure PadRec where
  id : PyVal
  name : PyVal
  locality : PyVal
  region : PyVal
  deriving DecidableEq

/-- A stored payload row (id, name, type, mass_kg, orbit). -/
structure PayloadRec where
  id : PyVal
  name : PyVal
  type : PyVal
  mass_kg : PyVal
  orbit : PyVal
  deriving DecidableEq

/-- A raw launch record as read by `insert_launches`: the values of
`launch.get("id")`, `launch.get("name")`, `launch.get("date_utc")`,
`launch.get("success")`, `launch.get("rocket")`, `launch.get("launchpad")`. -/
structure LaunchRec where
  id : PyVal
  name : PyVal
  date_utc : PyVal
  success : PyVal
  rocket : PyVal
  launchpad : PyVal
  deriving DecidableEq

/-- A stored row of the `launches` table. -/
structure LaunchRowP where
  id : PyVal
  name : PyVal
  date_utc : PyVal
  success : PyVal
  rocket_id : PyVal
  launchpad_id : PyVal
  deriving DecidableEq

/-- The five normalized tables of the store. -/
structure Tables where
  rockets : List RocketRec
  launchpads : List PadRec
  payloads : List PayloadRec
  launches : List LaunchRowP
  deriving DecidableEq

/-- Connection state relevant to referential integrity.  sqlite3 connections
start with `PRAGMA foreign_keys` OFF and the pipeline never turns it on. -/
structure Conn where
  foreign_keys : Bool
  deriving DecidableEq

/-- The connection `DataPipeline.__init__` opens: `sqlite3.connect(self.db_path)`
with the default foreign-key enforcement, which is OFF. -/
def pipelineConn : Conn := ⟨false⟩

/-- An error raised by `connection.execute`. -/
inductive SqlError where
  | bindError
  | fkViolation
  deriving DecidableEq

/-- All three bound parameters of the rockets INSERT are bindable. -/
def RocketRec.bindOk (r : RocketRec) : Bool :=
  r.id.bindable && r.name.bindable && r.type.bindable

/-- All six bound parameters of the launches INSERT are bindable. -/
def LaunchRec.bindOk (r : LaunchRec) : Bool :=
  r.id.bindable && r.name.bindable && r.date_utc.bindable &&
    r.success.bindable && r.rocket.bindable && r.launchpad.bindable

/-- SQL foreign-key check for one child column value against the parent id
column: a NULL child value passes, otherwise some parent row must carry an
equal id.  Modelled from the spec: `schema/schema.sql` is not under src; §3
declares `rocket_id (FK→Rocket)` and `launchpad_id (FK→Launchpad)`. -/
def fkOk (parentIds : List PyVal) (child : PyVal) : Bool :=
  decide (child = .vnone) || parentIds.any fun i => decide (i = child)

/-- One `connection.execute("INSERT OR IGNORE INTO rockets ...")` call.
Binding an unbindable value raises; otherwise OR IGNORE drops the row when an
existing row carries an equal primary key.  Modelled from the spec: the
primary-key-conflict rule comes from §3 ("Primary keys are globally unique;
re-ingestion of an already-present id is a no-op"), since `schema/schema.sql`
is not under src. -/
def execInsertRocket (t : Tables) (rec : RocketRec) : Except SqlError Tables :=
  if rec.bindOk then
    if t.rockets.any (fun r => decide (r.id = rec.id)) then .ok t
    else .ok { t with rockets := t.rockets ++ [rec] }
  else .error .bindError

/-- The loop body of `insert_rockets`, one execute per record, errors
propagating out of the loop. -/
def runRocketBatch (t : Tables) : List RocketRec → Except SqlError Tables
  | [] => .ok t
  | rec :: rest =>
    match execInsertRocket t rec with
    | .error e => .error e
    | .ok t' => runRocketBatch t' rest

/-- `DataPipeline.insert_rockets`: the batch runs inside
`with self.connection:`, so an exception rolls the whole transaction back
(the store is as before the batch) while success commits all of it. -/
def insert_rockets (t : Tables) (rockets : List RocketRec) : Tables :=
  match runRocketBatch t rockets with
  | .ok t' => t'
  | .error _ => t

/-- The count reported by `LOGGER.info(f"... Inserted {len(rockets)} rockets")`
after the batch: the number of records submitted, nothing else. -/
def rockets_log_count (rockets : List RocketRec) : ℕ := rockets.length

/-- The stored row built from the bound parameters of the launches INSERT. -/
def LaunchRec.toRow (rec : LaunchRec) : LaunchRowP :=
  ⟨rec.id, rec.name, rec.date_utc, rec.success, rec.rocket, rec.launchpad⟩

/-- One `connection.execute("INSERT OR IGNORE INTO launches ...")` call.
When (and only when) the connection enforces foreign keys, a non-NULL
`rocket_id`/`launchpad_id` with no matching parent row raises (OR IGNORE does
not absorb foreign-key violations); with enforcement off the row is simply
inserted.  Primary-key conflicts are ignored as for rockets. -/
def execInsertLaunch (conn : Conn) (t : Tables) (rec : LaunchRec) :
    Except SqlError Tables :=
  if rec.bindOk then
    if conn.foreign_keys &&
        !(fkOk (t.rockets.map (·.id)) rec.rocket &&
          fkOk (t.launchpads.map (·.id)) rec.launchpad) then
      .error .fkViolation
    else if t.launches.any (fun l => decide (l.id = rec.id)) then .ok t
    else .ok { t with launches := t.launches ++ [rec.toRow] }
  else .error .bindError

/-- The loop body of `insert_launches`. -/
def runLaunchBatch (conn : Conn) (t : Tables) :
    List LaunchRec → Except SqlError Tables
  | [] => .ok t
  | rec :: rest =>
    match execInsertLaunch conn t rec with
    | .error e => .error e
    | .ok t' => runLaunchBatch conn t' rest

/-- `DataPipeline.insert_launches`: one transaction per batch, rollback on an
escaping exception, commit otherwise. -/
def insert_launches (conn : Conn) (t : Tables) (launches : List LaunchRec) :
    Tables :=
  match runLaunchBatch conn t launches with
  | .ok t' => t'
  | .error _ => t

/-- The effect of one successful launches INSERT OR IGNORE on the launches
table alone. -/
def insertLaunchRow (ls : List LaunchRowP) (rec : LaunchRec) : List LaunchRowP :=
  if ls.any (fun l => decide (l.id = rec.id)) then ls else ls ++ [rec.toRow]

/-- The launches table after a batch in which every execute succeeds. -/
def applyLaunches (ls : List LaunchRowP) : List LaunchRec → List LaunchRowP
  | [] => ls
  | rec :: rest => applyLaunches (insertLaunchRow ls rec) rest

/-- Why one launch execute raises: an unbindable parameter, or (only under
foreign-key enforcement) a dangling reference.  This only reads the parent
tables, which launch inserts never modify. -/
def launchFails (conn : Conn) (t : Tables) (rec : LaunchRec) : Prop :=
  rec.bindOk = false ∨
    (conn.foreign_keys = true ∧
      (fkOk (t.rockets.map (·.id)) rec.rocket &&
        fkOk (t.launchpads.map (·.id)) rec.launchpad) = false)

instance (conn : Conn) (t : Tables) (rec : LaunchRec) :
    Decidable (launchFails conn t rec) := by
  unfold launchFails; infer_instance

/-- An id is present in the rockets table. -/
def hasRocketId (rows : List RocketRec) (i : PyVal) : Prop :=
  ∃ r ∈ rows, r.id = i

/- ===========================================================================
   Part 2.  Analysis store and aggregation query layer
   (src/data/sqlite_database.py; the same SQL texts appear inline in
   src/analysis/service.py, which this part cites where used).
   Rows carry the nullable SQL columns as `Option` values.  `date_utc` holds
   ISO-8601 timestamp strings, whose byte-wise (SQLite BINARY) comparison is
   chronological and whose first four characters are `strftime('%Y', ...)`.
   Success rates are kept in hundredths of a percent (an integer), see
   `rate_centi`.
   =========================================================================== -/

/-- A row of the `rockets` table. -/
structure Rocket where
  id : Option String
  name : Option String
  type : Option String
  deriving DecidableEq

/-- A row of the `launchpads` table. -/
structure Launchpad where
  id : Option String
  name : Option String
  locality : Option String
  region : Option String
  deriving DecidableEq

/-- A row of the `payloads` table. -/
structure Payload where
  id : Option String
  name : Option String
  type : Option String
  mass_kg : Option ℚ
  orbit : Option String
  deriving DecidableEq

/-- A row of the `launches` table; `success` is the tri-valued flag. -/
structure Launch where
  id : Option String
  name : Option String
  date_utc : Option String
  success : Option Bool
  rocket_id : Option String
  launchpad_id : Option String
  deriving DecidableEq

/-- A row of the `launch_payload` join table. -/
structure LaunchPayload where
  launch_id : Option String
  payload_id : Option String
  deriving DecidableEq

/-- The normalized store as read by the query layer. -/
structure DB where
  rockets : List Rocket
  launchpads : List Launchpad
  payloads : List Payload
  launches : List Launch
  launch_payload : List LaunchPayload
  deriving DecidableEq

/-- SQL `a = b` on two nullable ids: NULL compares equal to nothing. -/
def idEq : Option String → Option String → Bool
  | some a, some b => decide (a = b)
  | _, _ => false

/-- `FROM launches l JOIN rockets r ON l.rocket_id = r.id`. -/
def launch_rocket_rows (db : DB) : List (Launch × Rocket) :=
  db.launches.flatMap fun l =>
    (db.rockets.filter fun r => idEq l.rocket_id r.id).map fun r => (l, r)

/-- `FROM launches l JOIN rockets r ON l.rocket_id = r.id
JOIN launchpads lp ON l.launchpad_id = lp.id`. -/
def launch_rocket_pad_rows (db : DB) : List (Launch × Rocket × Launchpad) :=
  db.launches.flatMap fun l =>
    (db.rockets.filter fun r => idEq l.rocket_id r.id).flatMap fun r =>
      (db.launchpads.filter fun p => idEq l.launchpad_id p.id).map fun p =>
        (l, r, p)

/-- `FROM payloads p JOIN launch_payload lp ON p.id = lp.payload_id
JOIN launches l ON l.id = lp.launch_id`. -/
def payload_launch_rows (db : DB) : List (Payload × Launch) :=
  db.payloads.flatMap fun p =>
    (db.launch_payload.filter fun lp => idEq p.id lp.payload_id).flatMap fun lp =>
      (db.launches.filter fun l => idEq l.id lp.launch_id).map fun l => (p, l)

/-- SQL GROUP BY: the distinct key values (SQL groups NULL keys together),
each paired with the rows carrying that key. -/
def keyGroups {α κ : Type} [DecidableEq κ] (key : α → κ) (rows : List α) :
    List (κ × List α) :=
  ((rows.map key).dedup).map fun k =>
    (k, rows.filter fun x => decide (key x = k))

/-- `SUM(CASE WHEN success THEN 1 ELSE 0 END)`: a NULL success is not true,
so it falls to the ELSE branch and contributes 0. -/
def succCount (ss : List (Option Bool)) : ℕ :=
  ss.countP fun s => decide (s = some true)

/-- `ROUND(100.0 * succ / total, 2)` in hundredths of a percent: the integer
`round(10000 * succ / total)`.  SQLite rounds half away from zero; the value
is nonnegative, so that is `floor(x + 1/2)`, here in integer arithmetic. -/
def rate_centi (succ total : ℕ) : ℕ := (20000 * succ + total) / (2 * total)

/-- An output row of `get_rocket_success_rates`. -/
structure RocketRateRow where
  rocket : Option String
  total_launches : ℕ
  successful : ℕ
  success_rate : ℕ
  deriving DecidableEq

/-- `SQLiteDatabase.get_rocket_success_rates` (the identical SQL also runs in
`MissionAnalyzer.rocket_success_rates`): join launches to rockets, group by
rocket name, count all joined launches, count the true successes, rate them,
order by success_rate descending. -/
def get_rocket_success_rates (db : DB) : List RocketRateRow :=
  ((keyGroups (fun x => x.2.name) (launch_rocket_rows db)).map fun kg =>
      { rocket := kg.1,
        total_launches := kg.2.length,
        successful := succCount (kg.2.map fun x => x.1.success),
        success_rate :=
          rate_centi (succCount (kg.2.map fun x => x.1.success)) kg.2.length }
    ).insertionSort fun a b => b.success_rate ≤ a.success_rate

/-- An output row of `get_launchpad_performance`. -/
structure PadRateRow where
  launchpad : Option String
  total_launches : ℕ
  successful : ℕ
  success_rate : ℕ
  deriving DecidableEq

/-- `SQLiteDatabase.get_launchpad_performance` (same SQL inline in
`MissionAnalyzer.launchpad_performance`): group by launchpad name, same rate,
order by total launch count descending. -/
def get_launchpad_performance (db : DB) : List PadRateRow :=
  ((keyGroups (fun x => x.2.2.name) (launch_rocket_pad_rows db)).map fun kg =>
      { launchpad := kg.1,
        total_launches := kg.2.length,
        successful := succCount (kg.2.map fun x => x.1.success),
        success_rate :=
          rate_centi (succCount (kg.2.map fun x => x.1.success)) kg.2.length }
    ).insertionSort fun a b => b.total_launches ≤ a.total_launches

/-- An output row of `get_rocket_launchpad_combinations`. -/
structure ComboRow where
  rocket : Option String
  launchpad : Option String
  launches : ℕ
  successful : ℕ
  success_rate : ℕ
  deriving DecidableEq

/-- `ORDER BY success_rate DESC, launches DESC` for combination rows. -/
def comboOrder (a b : ComboRow) : Prop :=
  b.success_rate < a.success_rate ∨
    (a.success_rate = b.success_rate ∧ b.launches ≤ a.launches)

instance : DecidableRel comboOrder := fun a b => by
  unfold comboOrder; infer_instance

/-- `SQLiteDatabase.get_rocket_launchpad_combinations` (the identical SQL also
runs inside `MissionAnalyzer.plan_successful_launch`): group the
launches⋈rockets⋈launchpads rows by (rocket name, launchpad name), count all
joined launches of the group (`COUNT(*)`), rate them, keep groups with
`HAVING launches >= 3`, order by success_rate descending then launches
descending. -/
def get_rocket_launchpad_combinations (db : DB) : List ComboRow :=
  (((keyGroups (fun x => (x.2.1.name, x.2.2.name))
        (launch_rocket_pad_rows db)).map fun kg =>
      { rocket := kg.1.1,
        launchpad := kg.1.2,
        launches := kg.2.length,
        successful := succCount (kg.2.map fun x => x.1.success),
        success_rate :=
          rate_centi (succCount (kg.2.map fun x => x.1.success)) kg.2.length }
    ).filter fun row => 3 ≤ row.launches).insertionSort comboOrder

/-- The `CASE WHEN p.mass_kg < 500 ... WHEN p.mass_kg < 2000 ... ELSE ... END`
expression of `get_orbit_mass_profiles`. -/
def massBin (m : ℚ) : String :=
  if m < 500 then "0–500 kg" else if m < 2000 then "500–2000 kg" else "2000+ kg"

/-- The same CASE on the nullable column: `NULL < 500` and `NULL < 2000` are
NULL, hence not taken, so a NULL mass would fall to the ELSE branch — the
view's WHERE clause has already removed NULL masses before grouping. -/
def massBinOpt : Option ℚ → String
  | some m => massBin m
  | none => "2000+ kg"

/-- An output row of `get_orbit_mass_profiles`. -/
structure OrbitRow where
  orbit : Option String
  mass_bin : String
  missions : ℕ
  successful : ℕ
  success_rate : ℕ
  deriving DecidableEq

/-- `SQLiteDatabase.get_orbit_mass_profiles` (the identical SQL also runs
inside `MissionAnalyzer.plan_successful_launch`): join payloads through
launch_payload to launches, keep rows with non-NULL mass and orbit, group by
(orbit, mass bin), count all rows of the group, rate them, keep groups with
`HAVING missions >= 3`, order by success_rate descending then missions
descending. -/
def get_orbit_mass_profiles (db : DB) : List OrbitRow :=
  (((keyGroups (fun x => (x.1.orbit, massBinOpt x.1.mass_kg))
        ((payload_launch_rows db).filter fun x =>
          decide (x.1.mass_kg ≠ none) && decide (x.1.orbit ≠ none))).map fun kg =>
      { orbit := kg.1.1,
        mass_bin := kg.1.2,
        missions := kg.2.length,
        successful := succCount (kg.2.map fun x => x.2.success),
        success_rate :=
          rate_centi (succCount (kg.2.map fun x => x.2.success)) kg.2.length }
    ).filter fun row => 3 ≤ row.missions).insertionSort fun a b =>
      b.success_rate < a.success_rate ∨
        (a.success_rate = b.success_rate ∧ b.missions ≤ a.missions)

/-- `strftime('%Y', date_utc)` on an ISO-8601 timestamp string: its first four
characters; NULL for a NULL date. -/
def yearKey (l : Launch) : Option String := l.date_utc.map fun d => d.take 4

/-- SQLite `ORDER BY ... ASC` on a nullable text column: NULLs first, then
byte-wise string order. -/
def optStrLEb : Option String → Option String → Bool
  | none, _ => true
  | some _, none => false
  | some a, some b => decide (a ≤ b)

/-- An output row of `get_success_by_year`. -/
structure YearRow where
  year : Option String
  launches : ℕ
  successful : ℕ
  success_rate : ℕ
  deriving DecidableEq

/-- `SQLiteDatabase.get_success_by_year` (the identical SQL also runs inside
`MissionAnalyzer.plan_successful_launch`): group the launches table (no join)
by extracted year, count all launches of the group, rate them, order by year
ascending. -/
def get_success_by_year (db : DB) : List YearRow :=
  ((keyGroups yearKey db.launches).map fun kg =>
      { year := kg.1,
        launches := kg.2.length,
        successful := succCount (kg.2.map (·.success)),
        success_rate :=
          rate_centi (succCount (kg.2.map (·.success))) kg.2.length }
    ).insertionSort fun a b => optStrLEb a.year b.year = true

/-- An output row of `get_config_stability_by_year`. -/
structure StabYearRow where
  rocket : Option String
  launchpad : Option String
  year : Option String
  launches : ℕ
  successful : ℕ
  success_rate : ℕ
  deriving DecidableEq

/-- `SQLiteDatabase.get_config_stability_by_year` (the identical SQL also runs
inside `MissionAnalyzer.analyze_config_stability`): group the
launches⋈rockets⋈launchpads rows by (rocket name, launchpad name, year),
count all rows of the group, rate them, keep groups with
`HAVING launches >= 2`.  The SQL has no ORDER BY; rows appear in group
discovery order. -/
def get_config_stability_by_year (db : DB) : List StabYearRow :=
  ((keyGroups (fun x => (x.2.1.name, x.2.2.name, yearKey x.1))
      (launch_rocket_pad_rows db)).map fun kg =>
    { rocket := kg.1.1,
      launchpad := kg.1.2.1,
      year := kg.1.2.2,
      launches := kg.2.length,
      successful := succCount (kg.2.map fun x => x.1.success),
      success_rate :=
        rate_centi (succCount (kg.2.map fun x => x.1.success)) kg.2.length }
  ).filter fun row => 2 ≤ row.launches

/-- An output row of `analyze_config_stability`: per (rocket, launchpad), the
number of contributing years, the sum of the per-year rates (pandas computes
`mean = rate_sum / years`), and whether the cv column `std / mean` is not a
finite number.  Pandas' sample `std` is NaN when only one year contributes,
and division by a zero mean yields NaN (0/0) or an infinity — so the cv value
is non-finite exactly when `years ≤ 1` or the rates sum to zero (the rates
are nonnegative, so a zero mean is a zero sum). -/
structure StatRow where
  rocket : Option String
  launchpad : Option String
  years : ℕ
  rate_sum : ℕ
  cv_undefined : Bool
  deriving DecidableEq

/-- `MissionAnalyzer.analyze_config_stability`: group the per-year rows by
(rocket, launchpad) and aggregate mean/std/cv of `success_rate`.  Every group
is kept: the code computes `stats["std"] / stats["mean"]` for all groups and
only sorts by the result (`sort_values(by="cv")` leaves NaN rows at the end
of the CSV); this embedding keeps the groups in discovery order since no
claim concerns the sorted position of the finite-cv rows. -/
def analyze_config_stability (db : DB) : List StatRow :=
  (keyGroups (fun row => (row.rocket, row.launchpad))
      (get_config_stability_by_year db)).map fun kg =>
    { rocket := kg.1.1,
      launchpad := kg.1.2,
      years := kg.2.length,
      rate_sum := (kg.2.map (·.success_rate)).sum,
      cv_undefined :=
        decide (kg.2.length ≤ 1) || decide ((kg.2.map (·.success_rate)).sum = 0) }

/-- The observable outcome of `MissionAnalyzer.plan_successful_launch`:
either the markdown recommendation artifact was written from the top rows of
the two ranked views, or an exception was raised inside the `try` block,
caught by the blanket `except`, logged, and the method returned normally with
no `launch_recommendation.md` written. -/
inductive PlanOutcome where
  | wrote (rec : ComboRow) (orbit_rec : OrbitRow)
  | loggedError
  deriving DecidableEq

/-- `year_df["year"].astype(int)` succeeds on a year value: it must be a
non-empty digit string (NULL years or malformed dates raise). -/
def yearIntParses : Option String → Bool
  | none => false
  | some s => decide (s ≠ "") && s.data.all Char.isDigit

/-- `MissionAnalyzer.plan_successful_launch`: runs the three queries, then
`rec = rocket_pad_df.iloc[0]` and `orbit_rec = orbit_mass_df.iloc[0]`.
`.iloc[0]` on an empty frame raises IndexError and `astype(int)` raises on a
non-numeric year; any such exception is caught by the method's blanket
`except`, which logs and returns before `launch_recommendation.md` is
written.  (In the code the `astype` runs before the `.iloc` calls; every
failure path yields the same observable `loggedError` outcome.) -/
def plan_successful_launch (db : DB) : PlanOutcome :=
  if (get_success_by_year db).all (fun r => yearIntParses r.year) then
    match get_rocket_launchpad_combinations db, get_orbit_mass_profiles db with
    | rec :: _, orbit_rec :: _ => .wrote rec orbit_rec
    | _, _ => .loggedError
  else .loggedError

/-- A row of `get_rocket_sequential_launches`. -/
structure SeqRow where
  rocket : Option String
  date_utc : Option String
  success : Option Bool
  deriving DecidableEq

/-- SQLite `ORDER BY` strict comparison on a nullable text column: NULL sorts
before every string. -/
def optStrLTb : Option String → Option String → Bool
  | none, some _ => true
  | none, none => false
  | some _, none => false
  | some a, some b => decide (a < b)

/-- The `ORDER BY r.name, l.date_utc` order of
`get_rocket_sequential_launches`. -/
def seqLE (a b : SeqRow) : Prop :=
  (optStrLTb a.rocket b.rocket ||
    (decide (a.rocket = b.rocket) && optStrLEb a.date_utc b.date_utc)) = true

instance : DecidableRel seqLE := fun a b => by
  unfold seqLE; infer_instance

/-- `SQLiteDatabase.get_rocket_sequential_launches` (the identical SQL also
runs inside `MissionAnalyzer.detect_rocket_fatigue`): join launches to
rockets, keep only rows `WHERE l.success IS NOT NULL`, select (rocket name,
date_utc, success), order by rocket name then date. -/
def get_rocket_sequential_launches (db : DB) : List SeqRow :=
  (((launch_rocket_rows db).filter fun x => decide (x.1.success ≠ none)).map
      fun x => SeqRow.mk x.2.name x.1.date_utc x.1.success
    ).insertionSort seqLE

/-- Number the rows of a frame: each row receives one plus the number of
earlier frame rows with the same rocket. -/
def numberRows : List SeqRow → List SeqRow → List (SeqRow × ℕ)
  | _, [] => []
  | prev, x :: xs =>
    (x, prev.countP (fun y => decide (y.rocket = x.rocket)) + 1) ::
      numberRows (prev ++ [x]) xs

/-- The numbered frame of `MissionAnalyzer.detect_rocket_fatigue`:
`dataframe.groupby("rocket")["date_utc"].rank(method="first")` on the frame
the SQL returns sorted by (rocket, date_utc) assigns each row one plus the
count of earlier frame rows of its rocket (ties rank in appearance order, and
the frame is date-ascending within each rocket).  The subsequent
groupby((rocket, launch_number)) aggregation consumes these numbers
unchanged. -/
def detect_rocket_fatigue (db : DB) : List (SeqRow × ℕ) :=
  numberRows [] (get_rocket_sequential_launches db)

/- ===========================================================================
   Part 3.  Concrete claim inputs
   =========================================================================== -/

/-- A store already holding one rocket and one launchpad. -/
def seededTables : Tables :=
  { rockets := [⟨.vstr "r1", .vstr "Falcon 9", .vstr "rocket"⟩],
    launchpads := [⟨.vstr "p1", .vstr "LC-39A", .vnone, .vnone⟩],
    payloads := [], launches := [] }

/-- A launch record whose `rocket` id references no stored rocket. -/
def ghostLaunch : LaunchRec :=
  ⟨.vstr "l1", .vstr "Mission 1", .vstr "2020-01-01", .vbool true,
    .vstr "ghost", .vstr "p1"⟩

/-- A connection that does enforce foreign keys (what the pipeline would have
had after `PRAGMA foreign_keys = ON`; no such statement exists in src). -/
def fkConn : Conn := ⟨true⟩

/-- A launch record carrying a value sqlite3 cannot bind. -/
def badLaunch : LaunchRec :=
  ⟨.vstr "l2", .vstr "Mission 2", .vstr "2020-02-01", .vobj,
    .vstr "r1", .vstr "p1"⟩

/-- A well-formed launch record referencing the seeded rocket and pad. -/
def okLaunch : LaunchRec :=
  ⟨.vstr "l1", .vstr "Mission 1", .vstr "2020-01-01", .vbool true,
    .vstr "r1", .vstr "p1"⟩

/-- A rocket record with no id: `rocket.get("id")` is `None`. -/
def noIdRocket : RocketRec := ⟨.vnone, .vstr "Falcon 1", .vstr "rocket"⟩

/-- The empty store. -/
def emptyTables : Tables := ⟨[], [], [], []⟩

/-- The success-rate formula exactly as the specification words it
(a refinement-comparison definition written from the spec, not from the
code): `round(100 * count(success = true) / count(success in {true,false}),
2)`, in hundredths of a percent — the denominator counts only non-null
successes. -/
def spec_success_rate_centi (ss : List (Option Bool)) : ℕ :=
  rate_centi (ss.countP fun s => decide (s = some true))
    (ss.countP fun s => decide (s ≠ none))

/-- A store with one rocket and two of its launches: one success and one
launch with unknown (NULL) outcome. -/
def rateDB : DB :=
  { rockets := [⟨some "r1", some "Falcon 9", some "rocket"⟩],
    launchpads := [], payloads := [], launch_payload := [],
    launches :=
      [⟨some "l1", some "M1", some "2020-01-01", some true, some "r1", some "p1"⟩,
       ⟨some "l2", some "M2", some "2020-02-01", none, some "r1", some "p1"⟩] }

/-- A store whose rocket × launchpad view has a top row (three launches of
one configuration) while the orbit × mass-bin view is empty (no payloads at
all). -/
def emptyOrbitDB : DB :=
  { rockets := [⟨some "r1", some "Falcon 9", some "rocket"⟩],
    launchpads := [⟨some "p1", some "LC-39A", none, none⟩],
    payloads := [], launch_payload := [],
    launches :=
      [⟨some "l1", some "M1", some "2020-01-01", some true, some "r1", some "p1"⟩,
       ⟨some "l2", some "M2", some "2020-02-01", some true, some "r1", some "p1"⟩,
       ⟨some "l3", some "M3", some "2020-03-01", some false, some "r1", some "p1"⟩] }

/-- A store whose single configuration flew twice in 2020 and twice in 2021,
always unsuccessfully: both per-year success rates are 0. -/
def zeroMeanDB : DB :=
  { rockets := [⟨some "r1", some "Falcon 9", some "rocket"⟩],
    launchpads := [⟨some "p1", some "LC-39A", none, none⟩],
    payloads := [], launch_payload := [],
    launches :=
      [⟨some "l1", some "M1", some "2020-01-01", some false, some "r1", some "p1"⟩,
       ⟨some "l2", some "M2", some "2020-02-01", some false, some "r1", some "p1"⟩,
       ⟨some "l3", some "M3", some "2021-01-01", some false, some "r1", some "p1"⟩,
       ⟨some "l4", some "M4", some "2021-02-01", some false, some "r1", some "p1"⟩] }

/-- A store whose single (rocket, launchpad) pair has exactly two launches
with known outcome plus one launch with NULL success. -/
def nullSuccessComboDB : DB :=
  { rockets := [⟨some "r1", some "Falcon 9", some "rocket"⟩],
    launchpads := [⟨some "p1", some "LC-39A", none, none⟩],
    payloads := [], launch_payload := [],
    launches :=
      [⟨some "l1", some "M1", some "2020-01-01", some true, some "r1", some "p1"⟩,
       ⟨some "l2", some "M2", some "2020-02-02", some true, some "r1", some "p1"⟩,
       ⟨some "l3", some "M3", some "2020-03-03", none, some "r1", some "p1"⟩] }

/- ===========================================================================
   Part 4.  Lemmas
   =========================================================================== -/

lemma execInsertRocket_ok {t t' : Tables} {rec : RocketRec}
    (h : execInsertRocket t rec = .ok t') :
    t'.launchpads = t.launchpads ∧ t'.payloads = t.payloads ∧
      t'.launches = t.launches ∧ rec.bindOk = true ∧
      (∃ new, t'.rockets = t.rockets ++ new) ∧ hasRocketId t'.rockets rec.id := by
  unfold execInsertRocket at h
  split_ifs at h with hb hc
  · cases h
    obtain ⟨r, hr, hrid⟩ := List.any_eq_true.mp hc
    exact ⟨rfl, rfl, rfl, hb, ⟨[], (List.append_nil _).symm⟩,
      ⟨r, hr, of_decide_eq_true hrid⟩⟩
  · cases h
    exact ⟨rfl, rfl, rfl, hb, ⟨[rec], rfl⟩,
      ⟨rec, List.mem_append_right _ (List.mem_singleton.mpr rfl), rfl⟩⟩

lemma runRocketBatch_ok {b : List RocketRec} {t t' : Tables}
    (h : runRocketBatch t b = .ok t') :
    t'.launchpads = t.launchpads ∧ t'.payloads = t.payloads ∧
      t'.launches = t.launches ∧ (∃ new, t'.rockets = t.rockets ++ new) ∧
      ∀ rec ∈ b, rec.bindOk = true ∧ hasRocketId t'.rockets rec.id := by
  induction b generalizing t with
  | nil =>
    cases h
    exact ⟨rfl, rfl, rfl, ⟨[], (List.append_nil _).symm⟩, by simp⟩
  | cons x rest ih =>
    unfold runRocketBatch at h
    cases hexec : execInsertRocket t x with
    | error e => rw [hexec] at h; cases h
    | ok t1 =>
      rw [hexec] at h
      obtain ⟨hp1, hpay1, hl1, hbind1, ⟨new1, hr1⟩, hid1⟩ := execInsertRocket_ok hexec
      obtain ⟨hp2, hpay2, hl2, ⟨new2, hr2⟩, hmem2⟩ := ih h
      refine ⟨hp2.trans hp1, hpay2.trans hpay1, hl2.trans hl1,
        ⟨new1 ++ new2, by rw [hr2, hr1, List.append_assoc]⟩, ?_⟩
      intro rec hrec
      rcases List.mem_cons.mp hrec with hrec | hrec
      · subst hrec
        obtain ⟨r, hr, hrid⟩ := hid1
        exact ⟨hbind1, ⟨r, by rw [hr2]; exact List.mem_append_left _ hr, hrid⟩⟩
      · exact hmem2 rec hrec

lemma runRocketBatch_noop {b : List RocketRec} {t : Tables}
    (h : ∀ rec ∈ b, rec.bindOk = true ∧ hasRocketId t.rockets rec.id) :
    runRocketBatch t b = .ok t := by
  induction b with
  | nil => rfl
  | cons x rest ih =>
    obtain ⟨hbind, r, hr, hrid⟩ := h x (List.mem_cons_self x rest)
    have hany : (t.rockets.any fun r' => decide (r'.id = x.id)) = true :=
      List.any_eq_true.mpr ⟨r, hr, decide_eq_true hrid⟩
    have hexec : execInsertRocket t x = .ok t := by
      unfold execInsertRocket
      rw [if_pos hbind, if_pos hany]
    unfold runRocketBatch
    rw [hexec]
    exact ih fun rec hrec => h rec (List.mem_cons_of_mem _ hrec)

/-- `launchFails` reads only the parent id columns. -/
lemma launchFails_congr {conn : Conn} {t t1 : Tables} {rec : LaunchRec}
    (hr : t1.rockets = t.rockets) (hp : t1.launchpads = t.launchpads) :
    launchFails conn t1 rec ↔ launchFails conn t rec := by
  unfold launchFails
  rw [hr, hp]

lemma execInsertLaunch_ok {conn : Conn} {t t' : Tables} {rec : LaunchRec}
    (h : execInsertLaunch conn t rec = .ok t') :
    t'.rockets = t.rockets ∧ t'.launchpads = t.launchpads ∧
      t'.payloads = t.payloads ∧ t'.launches = insertLaunchRow t.launches rec := by
  unfold execInsertLaunch at h
  split_ifs at h with hb hfk hc
  · cases h
    exact ⟨rfl, rfl, rfl, by unfold insertLaunchRow; rw [if_pos hc]⟩
  · cases h
    exact ⟨rfl, rfl, rfl, by unfold insertLaunchRow; rw [if_neg hc]⟩

lemma execInsertLaunch_notFail {conn : Conn} {t : Tables} {rec : LaunchRec}
    (h : ¬ launchFails conn t rec) :
    execInsertLaunch conn t rec =
      .ok { t with launches := insertLaunchRow t.launches rec } := by
  unfold launchFails at h
  push_neg at h
  obtain ⟨hbind, hfk⟩ := h
  have hb : rec.bindOk = true := by
    rcases Bool.dichotomy rec.bindOk with hbo | hbo
    · exact absurd hbo hbind
    · exact hbo
  have hcond : (conn.foreign_keys &&
      !(fkOk (t.rockets.map (·.id)) rec.rocket &&
        fkOk (t.launchpads.map (·.id)) rec.launchpad)) = false := by
    rcases Bool.dichotomy conn.foreign_keys with hck | hck
    · rw [hck]
      rfl
    · have hp := hfk hck
      have hp' : (fkOk (t.rockets.map (·.id)) rec.rocket &&
          fkOk (t.launchpads.map (·.id)) rec.launchpad) = true := by
        rcases Bool.dichotomy (fkOk (t.rockets.map (·.id)) rec.rocket &&
            fkOk (t.launchpads.map (·.id)) rec.launchpad) with h1 | h1
        · exact absurd h1 hp
        · exact h1
      rw [hck, hp']
      rfl
  have hpair : conn.foreign_keys = true →
      fkOk (t.rockets.map (·.id)) rec.rocket = true ∧
      fkOk (t.launchpads.map (·.id)) rec.launchpad = true := by
    intro hck
    have hp := hfk hck
    have h1 : (fkOk (t.rockets.map (·.id)) rec.rocket &&
        fkOk (t.launchpads.map (·.id)) rec.launchpad) = true := by
      rcases Bool.dichotomy (fkOk (t.rockets.map (·.id)) rec.rocket &&
          fkOk (t.launchpads.map (·.id)) rec.launchpad) with h1 | h1
      · exact absurd h1 hp
      · exact h1
    simpa using h1
  by_cases hc : (t.launches.any fun l => decide (l.id = rec.id)) = true
  · simp [execInsertLaunch, insertLaunchRow, hb, hcond, hc]
    exact hpair
  · simp [execInsertLaunch, insertLaunchRow, hb, hcond, hc]
    exact hpair

lemma execInsertLaunch_fail {conn : Conn} {t : Tables} {rec : LaunchRec}
    (h : launchFails conn t rec) :
    ∃ e, execInsertLaunch conn t rec = .error e := by
  rcases h with hb | ⟨hck, hpair⟩
  · refine ⟨.bindError, ?_⟩
    unfold execInsertLaunch
    rw [hb]
    rfl
  · rcases Bool.dichotomy rec.bindOk with hbo | hbo
    · refine ⟨.bindError, ?_⟩
      unfold execInsertLaunch
      rw [hbo]
      rfl
    · refine ⟨.fkViolation, ?_⟩
      unfold execInsertLaunch
      rw [hbo, hck, hpair]
      rfl

lemma runLaunchBatch_rollback {conn : Conn} {b : List LaunchRec} {t : Tables}
    (h : ∃ rec ∈ b, launchFails conn t rec) :
    ∃ e, runLaunchBatch conn t b = .error e := by
  induction b generalizing t with
  | nil => obtain ⟨rec, hrec, _⟩ := h; cases hrec
  | cons x rest ih =>
    obtain ⟨rec, hrec, hf⟩ := h
    rcases List.mem_cons.mp hrec with hrec | hrec
    · subst hrec
      obtain ⟨e, he⟩ := execInsertLaunch_fail hf
      exact ⟨e, by unfold runLaunchBatch; rw [he]⟩
    · cases hexec : execInsertLaunch conn t x with
      | error e => exact ⟨e, by unfold runLaunchBatch; rw [hexec]⟩
      | ok t1 =>
        obtain ⟨hr1, hp1, _, _⟩ := execInsertLaunch_ok hexec
        obtain ⟨e, he⟩ :=
          ih ⟨rec, hrec, (launchFails_congr hr1 hp1).mpr hf⟩
        exact ⟨e, by unfold runLaunchBatch; rw [hexec]; exact he⟩

lemma runLaunchBatch_success {conn : Conn} {b : List LaunchRec} {t : Tables}
    (h : ∀ rec ∈ b, ¬ launchFails conn t rec) :
    runLaunchBatch conn t b = .ok { t with launches := applyLaunches t.launches b } := by
  induction b generalizing t with
  | nil => rfl
  | cons x rest ih =>
    have hx := execInsertLaunch_notFail (h x (List.mem_cons_self x rest))
    unfold runLaunchBatch
    rw [hx]
    exact ih fun rec hrec hf =>
      h rec (List.mem_cons_of_mem _ hrec) ((launchFails_congr rfl rfl).mp hf)

lemma runLaunchBatch_parents {conn : Conn} {b : List LaunchRec} {t t' : Tables}
    (h : runLaunchBatch conn t b = .ok t') :
    t'.rockets = t.rockets ∧ t'.launchpads = t.launchpads ∧
      t'.payloads = t.payloads := by
  induction b generalizing t with
  | nil => cases h; exact ⟨rfl, rfl, rfl⟩
  | cons x rest ih =>
    unfold runLaunchBatch at h
    cases hexec : execInsertLaunch conn t x with
    | error e => rw [hexec] at h; cases h
    | ok t1 =>
      rw [hexec] at h
      obtain ⟨hr1, hp1, hpay1, _⟩ := execInsertLaunch_ok hexec
      obtain ⟨hr2, hp2, hpay2⟩ := ih h
      exact ⟨hr2.trans hr1, hp2.trans hp1, hpay2.trans hpay1⟩

/-- `rate_centi` agrees with the rational rounding it encodes. -/
lemma rate_centi_eq_round (succ total : ℕ) (h : 0 < total) :
    (rate_centi succ total : ℤ) = round ((10000 * succ : ℚ) / total) := by
  rw [round_eq]
  have ht : (total : ℚ) ≠ 0 := Nat.cast_ne_zero.mpr h.ne'
  have h2 : (10000 * succ : ℚ) / total + 1 / 2 =
      ((20000 * succ + total : ℕ) : ℚ) / ((2 * total : ℕ) : ℚ) := by
    push_cast
    field_simp
    ring
  rw [h2, Rat.floor_natCast_div_natCast]
  unfold rate_centi
  push_cast
  rfl

instance : IsTotal ComboRow comboOrder := by
  constructor
  intro a b
  rcases lt_trichotomy a.success_rate b.success_rate with h | h | h
  · exact .inr (.inl h)
  · rcases Nat.le_total a.launches b.launches with hl | hl
    · exact .inr (.inr ⟨h.symm, hl⟩)
    · exact .inl (.inr ⟨h, hl⟩)
  · exact .inl (.inl h)

instance : IsTrans ComboRow comboOrder := by
  constructor
  intro a b c hab hbc
  rcases hab with hab | ⟨hab1, hab2⟩
  · rcases hbc with hbc | ⟨hbc1, hbc2⟩
    · exact .inl (hbc.trans hab)
    · exact .inl (hbc1 ▸ hab)
  · rcases hbc with hbc | ⟨hbc1, hbc2⟩
    · exact .inl (hab1 ▸ hbc)
    · exact .inr ⟨hab1.trans hbc1, hbc2.trans hab2⟩

lemma mem_keyGroups {α κ : Type} [DecidableEq κ] {key : α → κ} {rows : List α}
    {k : κ} {g : List α} (h : (k, g) ∈ keyGroups key rows) :
    (∃ x ∈ rows, key x = k) ∧ g = rows.filter fun x => decide (key x = k) := by
  unfold keyGroups at h
  obtain ⟨k', hk', heq⟩ := List.mem_map.mp h
  cases heq
  exact ⟨List.mem_map.mp (List.mem_dedup.mp hk'), rfl⟩

lemma keyGroups_mem_of_key {α κ : Type} [DecidableEq κ] {key : α → κ}
    {rows : List α} {k : κ} (h : ∃ x ∈ rows, key x = k) :
    (k, rows.filter fun x => decide (key x = k)) ∈ keyGroups key rows := by
  unfold keyGroups
  exact List.mem_map.mpr
    ⟨k, List.mem_dedup.mpr (List.mem_map.mpr h), rfl⟩

lemma countP_lt_length_of_exists_not {α : Type} {l : List α} {p : α → Bool}
    (h : ∃ x ∈ l, ¬ p x = true) : l.countP p < l.length := by
  obtain ⟨x, hx, hpx⟩ := h
  rcases Nat.lt_or_ge (l.countP p) l.length with h' | h'
  · exact h'
  · exact absurd (List.countP_eq_length.mp
      (Nat.le_antisymm (List.countP_le_length p) h') x hx) hpx

lemma optStrLTb_irrefl (a : Option String) : optStrLTb a a = false := by
  cases a with
  | none => rfl
  | some s => simp [optStrLTb]

lemma optStrLTb_trans {a b c : Option String} (hab : optStrLTb a b = true)
    (hbc : optStrLTb b c = true) : optStrLTb a c = true := by
  cases a <;> cases b <;> cases c <;> simp_all [optStrLTb] <;>
    exact lt_trans hab hbc

lemma optStrLEb_trans {a b c : Option String} (hab : optStrLEb a b = true)
    (hbc : optStrLEb b c = true) : optStrLEb a c = true := by
  cases a <;> cases b <;> cases c <;> simp_all [optStrLEb] <;>
    exact le_trans hab hbc

lemma optStrLEb_total (a b : Option String) :
    optStrLEb a b = true ∨ optStrLEb b a = true := by
  cases a <;> cases b <;> simp [optStrLEb]
  exact le_total _ _

lemma optStr_trichotomy (a b : Option String) :
    optStrLTb a b = true ∨ a = b ∨ optStrLTb b a = true := by
  cases a with
  | none =>
    cases b with
    | none => exact .inr (.inl rfl)
    | some t => exact .inl rfl
  | some s =>
    cases b with
    | none => exact .inr (.inr rfl)
    | some t =>
      rcases lt_trichotomy s t with h | h | h
      · exact .inl (by simp [optStrLTb, h])
      · exact .inr (.inl (by rw [h]))
      · exact .inr (.inr (by simp [optStrLTb, h]))

instance : IsTotal SeqRow seqLE := by
  constructor
  intro a b
  unfold seqLE
  simp only [Bool.or_eq_true, Bool.and_eq_true, decide_eq_true_eq]
  rcases optStr_trichotomy a.rocket b.rocket with h | h | h
  · exact .inl (.inl h)
  · rcases optStrLEb_total a.date_utc b.date_utc with hd | hd
    · exact .inl (.inr ⟨h, hd⟩)
    · exact .inr (.inr ⟨h.symm, hd⟩)
  · exact .inr (.inl h)

instance : IsTrans SeqRow seqLE := by
  constructor
  intro a b c hab hbc
  unfold seqLE at hab hbc ⊢
  simp only [Bool.or_eq_true, Bool.and_eq_true, decide_eq_true_eq] at hab hbc ⊢
  rcases hab with hab | ⟨he, hd⟩
  · rcases hbc with hbc | ⟨he2, hd2⟩
    · exact .inl (optStrLTb_trans hab hbc)
    · exact .inl (he2 ▸ hab)
  · rcases hbc with hbc | ⟨he2, hd2⟩
    · exact .inl (he ▸ hbc)
    · exact .inr ⟨he.trans he2, optStrLEb_trans hd hd2⟩

lemma numberRows_filter (r : Option String) :
    ∀ (xs prev : List SeqRow),
      ((numberRows prev xs).filter fun y => decide (y.1.rocket = r)).map
          (fun y => y.2) =
        List.range' ((prev.countP fun y => decide (y.rocket = r)) + 1)
          ((xs.filter fun y => decide (y.rocket = r)).length) := by
  intro xs
  induction xs with
  | nil => intro prev; rfl
  | cons x xs ih =>
    intro prev
    unfold numberRows
    rcases Bool.dichotomy (decide (x.rocket = r)) with hx | hx
    · have hcnt : ((prev ++ [x]).countP fun y => decide (y.rocket = r)) =
          (prev.countP fun y => decide (y.rocket = r)) := by
        rw [List.countP_append]
        simp [List.countP_cons, hx]
      rw [List.filter_cons_of_neg (by simpa using hx),
        List.filter_cons_of_neg (by simpa using hx),
        ih (prev ++ [x]), hcnt]
    · have hxr : x.rocket = r := of_decide_eq_true hx
      have hcnt : ((prev ++ [x]).countP fun y => decide (y.rocket = r)) =
          (prev.countP fun y => decide (y.rocket = r)) + 1 := by
        rw [List.countP_append]
        simp [List.countP_cons, hx]
      rw [List.filter_cons_of_pos (by simpa using hx),
        List.filter_cons_of_pos (by simpa using hx),
        List.map_cons, List.length_cons, List.range'_succ,
        ih (prev ++ [x]), hcnt, hxr]

/- ===========================================================================
   Part 5.  Claim theorems
   =========================================================================== -/

/-- C3: inserting a launch whose `rocket_id` matches no rocket row raises no
referential-integrity error on the pipeline's connection — the offending row
is silently inserted, because `sqlite3.connect` leaves foreign-key
enforcement off and the pipeline never enables it.  Only under an
enforcement-enabled connection would the same batch fail. -/
theorem insert_launches_dangling_fk_silent :
    insert_launches pipelineConn seededTables [ghostLaunch] =
      { seededTables with launches := [ghostLaunch.toRow] } ∧
    runLaunchBatch pipelineConn seededTables [ghostLaunch] =
      .ok { seededTables with launches := [ghostLaunch.toRow] } ∧
    runLaunchBatch fkConn seededTables [ghostLaunch] = .error .fkViolation := by
  refine ⟨?_, ?_, ?_⟩ <;> rfl

/-- C4: for every store state and every input batch, running `insert_rockets`
twice with identical input leaves the table equal to the state after the
first run, and the first run only ever appends rows after the existing ones
(INSERT OR IGNORE never updates a stored row). -/
theorem insert_rockets_idempotent :
    ∀ (t : Tables) (b : List RocketRec),
      insert_rockets (insert_rockets t b) b = insert_rockets t b ∧
      ∃ new, (insert_rockets t b).rockets = t.rockets ++ new := by
  intro t b
  cases h : runRocketBatch t b with
  | error e =>
    have h1 : insert_rockets t b = t := by unfold insert_rockets; rw [h]
    exact ⟨by rw [h1]; exact h1, [], by rw [h1, List.append_nil]⟩
  | ok t' =>
    have h1 : insert_rockets t b = t' := by unfold insert_rockets; rw [h]
    obtain ⟨_, _, _, ⟨new, hnew⟩, hmem⟩ := runRocketBatch_ok h
    have h2 : runRocketBatch t' b = .ok t' := runRocketBatch_noop hmem
    refine ⟨?_, new, by rw [h1, hnew]⟩
    rw [h1]
    unfold insert_rockets
    rw [h2]

/-- C5: a launches batch is atomic: if any record of the batch fails (an
unbindable value, or — under an enforcing connection — a dangling reference),
the whole transaction rolls back and the store is exactly as before the
batch; if no record fails, the batch commits as a whole; and in every case
the tables of the earlier entity kinds are untouched. -/
theorem insert_launches_atomic (conn : Conn) (t : Tables) (b : List LaunchRec) :
    ((∃ rec ∈ b, launchFails conn t rec) → insert_launches conn t b = t) ∧
    ((∀ rec ∈ b, ¬ launchFails conn t rec) →
      insert_launches conn t b = { t with launches := applyLaunches t.launches b }) ∧
    (insert_launches conn t b).rockets = t.rockets ∧
    (insert_launches conn t b).launchpads = t.launchpads ∧
    (insert_launches conn t b).payloads = t.payloads := by
  refine ⟨?_, ?_, ?_⟩
  · intro h
    obtain ⟨e, he⟩ := runLaunchBatch_rollback h
    unfold insert_launches
    rw [he]
  · intro h
    unfold insert_launches
    rw [runLaunchBatch_success h]
  · cases h : runLaunchBatch conn t b with
    | error e =>
      have h1 : insert_launches conn t b = t := by unfold insert_launches; rw [h]
      rw [h1]
      exact ⟨rfl, rfl, rfl⟩
    | ok t' =>
      have h1 : insert_launches conn t b = t' := by unfold insert_launches; rw [h]
      rw [h1]
      exact runLaunchBatch_parents h

/-- Witness for C5: a concrete batch that fails on its second record rolls
back entirely — the launch inserted by the first, successful execute does not
persist. -/
theorem insert_launches_atomic_witness :
    insert_launches pipelineConn seededTables [okLaunch, badLaunch] =
      seededTables :=
  (insert_launches_atomic pipelineConn seededTables [okLaunch, badLaunch]).1
    ⟨badLaunch, by decide, by decide⟩

/-- C7: a source record missing its required identifier is not skipped:
`insert_rockets` executes the INSERT with a NULL id and a row for the record
lands in the table, and the only completion report counts the full submitted
batch — the code keeps no count of malformed records. -/
theorem insert_rockets_missing_id_not_skipped :
    (insert_rockets emptyTables [noIdRocket]).rockets = [noIdRocket] ∧
    rockets_log_count [noIdRocket] = 1 := by
  exact ⟨rfl, rfl⟩

/-- C1, counterexample: on `rateDB` the rocket view reports a 50.00% success
rate — the NULL-success launch is counted in the denominator (`COUNT(*)`) —
while the spec's formula, whose denominator keeps only non-null successes,
gives 100.00%. -/
theorem rocket_success_rate_counterexample :
    get_rocket_success_rates rateDB =
      [⟨some "Falcon 9", 2, 1, 5000⟩] ∧
    spec_success_rate_centi
      ((launch_rocket_rows rateDB).map fun x => x.1.success) = 10000 ∧
    (5000 : ℕ) ≠ 10000 :=
  ⟨by decide, by decide, by decide⟩

/-- C1, amended: every row of the rocket success-rate view carries
`COUNT(*)` — the number of all joined launches of its group, NULL successes
included — as denominator, `count(success = true)` as numerator, and
`success_rate = round(100 * successful / total_launches, 2)`; hence a group
containing a NULL-success launch has strictly more denominator rows than
non-null-success launches.  (Every other rate view of the catalog uses the
same `rate_centi _ (group length)` shape, as their definitions show.) -/
theorem rocket_success_rate_denominator (db : DB) (row : RocketRateRow)
    (h : row ∈ get_rocket_success_rates db) :
    row.total_launches =
      ((launch_rocket_rows db).filter fun x =>
        decide (x.2.name = row.rocket)).length ∧
    row.successful =
      succCount (((launch_rocket_rows db).filter fun x =>
        decide (x.2.name = row.rocket)).map fun x => x.1.success) ∧
    row.success_rate = rate_centi row.successful row.total_launches ∧
    ((∃ x ∈ (launch_rocket_rows db).filter fun x =>
        decide (x.2.name = row.rocket), x.1.success = none) →
      ((launch_rocket_rows db).filter fun x =>
        decide (x.2.name = row.rocket)).countP
          (fun x => decide (x.1.success ≠ none)) < row.total_launches) := by
  unfold get_rocket_success_rates at h
  have h1 := (List.mem_insertionSort _).mp h
  obtain ⟨⟨k, g⟩, hkg, hmk⟩ := List.mem_map.mp h1
  obtain ⟨hex, hg⟩ := mem_keyGroups hkg
  subst hmk
  refine ⟨?_, ?_, rfl, ?_⟩
  · show g.length = _
    rw [hg]
  · show succCount (g.map fun x => x.1.success) = _
    rw [hg]
  · rintro ⟨x, hx, hxs⟩
    have hg' : g = (launch_rocket_rows db).filter fun x => decide (x.2.name = k) :=
      hg
    have hx' : x ∈ (launch_rocket_rows db).filter fun x => decide (x.2.name = k) :=
      hx
    show ((launch_rocket_rows db).filter fun x => decide (x.2.name = k)).countP
        (fun x => decide (x.1.success ≠ none)) < g.length
    rw [← hg'] at hx' ⊢
    exact countP_lt_length_of_exists_not ⟨x, hx', by simp [hxs]⟩

/-- Witness for the amended C1 theorem at the concrete store `rateDB`. -/
theorem rocket_success_rate_denominator_witness :
    (⟨some "Falcon 9", 2, 1, 5000⟩ : RocketRateRow).success_rate =
      rate_centi (⟨some "Falcon 9", 2, 1, 5000⟩ : RocketRateRow).successful
        (⟨some "Falcon 9", 2, 1, 5000⟩ : RocketRateRow).total_launches ∧
    ((launch_rocket_rows rateDB).filter fun x =>
        decide (x.2.name = (⟨some "Falcon 9", 2, 1, 5000⟩ : RocketRateRow).rocket)).countP
      (fun x => decide (x.1.success ≠ none)) <
      (⟨some "Falcon 9", 2, 1, 5000⟩ : RocketRateRow).total_launches := by
  have h := rocket_success_rate_denominator rateDB
    ⟨some "Falcon 9", 2, 1, 5000⟩ (by decide)
  exact ⟨h.2.2.1, h.2.2.2 (by decide)⟩

/-- C2: with the orbit × mass-bin view empty, `plan_successful_launch` does
not surface any error to its caller: the IndexError that
`orbit_mass_df.iloc[0]` raises is caught by the method's own blanket
`except`, logged, and the method returns normally (`loggedError`); no
`launch_recommendation.md` is written, but no distinct
"no qualifying configuration found" error kind exists anywhere in the code. -/
theorem plan_empty_view_logged_not_raised :
    get_orbit_mass_profiles emptyOrbitDB = [] ∧
    get_rocket_launchpad_combinations emptyOrbitDB ≠ [] ∧
    plan_successful_launch emptyOrbitDB = .loggedError :=
  ⟨by decide, by decide, by decide⟩

/-- C6: the configuration whose per-year success rates are [0, 0] — mean
zero — is not excluded from `analyze_config_stability`'s output (and nothing
is logged about it): the code divides `std / mean` for every group, so this
row reaches the CSV with a non-finite cv (`cv_undefined`, the 0/0 NaN). -/
theorem config_stability_zero_mean_not_excluded :
    analyze_config_stability zeroMeanDB =
      [⟨some "Falcon 9", some "LC-39A", 2, 0, true⟩] := by
  decide

/-- C8, counterexample: a pair with exactly 2 qualifying (non-NULL-success)
launches appears in the combinations view, because `HAVING launches >= 3`
counts `COUNT(*)` over all launches of the pair, NULL successes included. -/
theorem combos_two_qualifying_present :
    get_rocket_launchpad_combinations nullSuccessComboDB =
      [⟨some "Falcon 9", some "LC-39A", 3, 2, 6667⟩] ∧
    ((launch_rocket_pad_rows nullSuccessComboDB).filter fun x =>
      decide (x.1.success ≠ none)).length = 2 :=
  ⟨by decide, by decide⟩

/-- C8, amended: a (rocket, launchpad) pair appears in the combinations view
exactly when it has at least 3 launches in total — NULL-success launches
count towards the threshold — and the view is ordered by success_rate
descending, then launch count descending. -/
theorem combos_threshold_total_and_sorted (db : DB) (r p : Option String) :
    ((∃ row ∈ get_rocket_launchpad_combinations db,
        row.rocket = r ∧ row.launchpad = p) ↔
      3 ≤ ((launch_rocket_pad_rows db).filter fun x =>
        decide ((x.2.1.name, x.2.2.name) = (r, p))).length) ∧
    List.Sorted comboOrder (get_rocket_launchpad_combinations db) := by
  constructor
  · constructor
    · rintro ⟨row, hrow, hr, hp⟩
      unfold get_rocket_launchpad_combinations at hrow
      have h1 := (List.mem_insertionSort _).mp hrow
      obtain ⟨hmem, hfilter⟩ := List.mem_filter.mp h1
      obtain ⟨⟨⟨k1, k2⟩, g⟩, hkg, hmk⟩ := List.mem_map.mp hmem
      obtain ⟨hex, hg⟩ := mem_keyGroups hkg
      subst hmk
      have hr' : k1 = r := hr
      have hp' : k2 = p := hp
      subst hr'
      subst hp'
      have h3 : 3 ≤ g.length := of_decide_eq_true hfilter
      rw [hg] at h3
      exact h3
    · intro h3
      have hpos : 0 < ((launch_rocket_pad_rows db).filter fun x =>
          decide ((x.2.1.name, x.2.2.name) = (r, p))).length := by omega
      obtain ⟨x, hx⟩ := List.exists_mem_of_length_pos hpos
      obtain ⟨hxmem, hxk⟩ := List.mem_filter.mp hx
      have hex : ∃ x ∈ launch_rocket_pad_rows db,
          (x.2.1.name, x.2.2.name) = (r, p) :=
        ⟨x, hxmem, of_decide_eq_true hxk⟩
      have hkg := @keyGroups_mem_of_key (Launch × Rocket × Launchpad) _ _
        (fun x => (x.2.1.name, x.2.2.name)) (launch_rocket_pad_rows db) (r, p) hex
      refine ⟨⟨r, p,
        ((launch_rocket_pad_rows db).filter fun x =>
          decide ((x.2.1.name, x.2.2.name) = (r, p))).length,
        succCount (((launch_rocket_pad_rows db).filter fun x =>
          decide ((x.2.1.name, x.2.2.name) = (r, p))).map fun x => x.1.success),
        rate_centi (succCount (((launch_rocket_pad_rows db).filter fun x =>
            decide ((x.2.1.name, x.2.2.name) = (r, p))).map fun x => x.1.success))
          ((launch_rocket_pad_rows db).filter fun x =>
            decide ((x.2.1.name, x.2.2.name) = (r, p))).length⟩, ?_, rfl, rfl⟩
      unfold get_rocket_launchpad_combinations
      refine (List.mem_insertionSort _).mpr (List.mem_filter.mpr ⟨?_, ?_⟩)
      · exact List.mem_map.mpr ⟨((r, p),
          (launch_rocket_pad_rows db).filter fun x =>
            decide ((x.2.1.name, x.2.2.name) = (r, p))), hkg, rfl⟩
      · exact decide_eq_true h3
  · unfold get_rocket_launchpad_combinations
    exact List.sorted_insertionSort comboOrder _

/-- C9: the payload mass bins are the half-open intervals [0,500), [500,2000)
and [2000,∞): mass 500 falls in the middle bin (not the first), mass 2000 in
the top bin, and on nonnegative masses each bin label is produced exactly on
its interval. -/
theorem massBin_half_open_bins (m : ℚ) (h : 0 ≤ m) :
    massBin 500 = "500–2000 kg" ∧ massBin 500 ≠ "0–500 kg" ∧
    massBin 2000 = "2000+ kg" ∧
    (massBin m = "0–500 kg" ↔ m < 500) ∧
    (massBin m = "500–2000 kg" ↔ 500 ≤ m ∧ m < 2000) ∧
    (massBin m = "2000+ kg" ↔ 2000 ≤ m) := by
  refine ⟨by decide, by decide, by decide, ?_, ?_, ?_⟩
  · unfold massBin
    split_ifs with h1 h2
    · simpa using h1
    · constructor
      · intro hx
        exact absurd hx (by decide)
      · intro hx
        exact absurd hx h1
    · constructor
      · intro hx
        exact absurd hx (by decide)
      · intro hx
        exact absurd hx h1
  · unfold massBin
    split_ifs with h1 h2
    · constructor
      · intro hx
        exact absurd hx (by decide)
      · rintro ⟨h5, _⟩
        linarith
    · exact ⟨fun _ => ⟨not_lt.mp h1, h2⟩, fun _ => rfl⟩
    · constructor
      · intro hx
        exact absurd hx (by decide)
      · rintro ⟨_, h20⟩
        exact absurd h20 h2
  · unfold massBin
    split_ifs with h1 h2
    · constructor
      · intro hx
        exact absurd hx (by decide)
      · intro h20
        linarith
    · constructor
      · intro hx
        exact absurd hx (by decide)
      · intro h20
        linarith
    · exact ⟨fun _ => not_lt.mp h2, fun _ => rfl⟩

/-- Witness for C9 at the boundary masses themselves. -/
theorem massBin_half_open_bins_witness :
    massBin 500 = "500–2000 kg" ∧
    (massBin 2000 = "2000+ kg" ↔ 2000 ≤ (2000 : ℚ)) :=
  ⟨(massBin_half_open_bins 500 (by norm_num)).1,
    (massBin_half_open_bins 2000 (by norm_num)).2.2.2.2.2⟩

/-- C10: `detect_rocket_fatigue` numbers only a rocket's known-outcome
launches: (a) NULL-success launches never reach the ranked frame, (b) each
rocket's frame rows are date-ascending, and (c) its rows receive the
consecutive numbers 1, 2, …, k where k is the count of that rocket's
non-NULL-success launches — so launch_number N is the rocket's Nth
known-outcome launch, not its Nth launch overall, and every launch after a
skipped NULL-success one is numbered one lower. -/
theorem fatigue_numbers_rank_known_outcomes (db : DB) (r : Option String) :
    (∀ row ∈ get_rocket_sequential_launches db, row.success ≠ none) ∧
    List.Pairwise (fun a b => optStrLEb a.date_utc b.date_utc = true)
      ((get_rocket_sequential_launches db).filter fun y =>
        decide (y.rocket = r)) ∧
    ((detect_rocket_fatigue db).filter fun y =>
        decide (y.1.rocket = r)).map (fun y => y.2) =
      List.range' 1
        (((get_rocket_sequential_launches db).filter fun y =>
          decide (y.rocket = r)).length) := by
  refine ⟨?_, ?_, ?_⟩
  · intro row hrow
    unfold get_rocket_sequential_launches at hrow
    have h1 := (List.mem_insertionSort _).mp hrow
    obtain ⟨x, hx, hmap⟩ := List.mem_map.mp h1
    obtain ⟨hxmem, hxf⟩ := List.mem_filter.mp hx
    subst hmap
    exact of_decide_eq_true hxf
  · have hsorted : List.Sorted seqLE (get_rocket_sequential_launches db) := by
      unfold get_rocket_sequential_launches
      exact List.sorted_insertionSort seqLE _
    have hsub : ((get_rocket_sequential_launches db).filter fun y =>
        decide (y.rocket = r)).Pairwise seqLE :=
      hsorted.sublist (List.filter_sublist _)
    refine List.Pairwise.imp_of_mem ?_ hsub
    intro a b ha hb hab
    have har : a.rocket = r := of_decide_eq_true (List.mem_filter.mp ha).2
    have hbr : b.rocket = r := of_decide_eq_true (List.mem_filter.mp hb).2
    unfold seqLE at hab
    simp only [Bool.or_eq_true, Bool.and_eq_true, decide_eq_true_eq] at hab
    rcases hab with hab | ⟨_, hd⟩
    · rw [har, hbr, optStrLTb_irrefl] at hab
      exact absurd hab Bool.false_ne_true
    · exact hd
  · unfold detect_rocket_fatigue
    simpa using numberRows_filter r (get_rocket_sequential_launches db) []

